import Mathlib

/-!
Verification of the Waveshare 1.02-inch e-paper driver
(`src/epd1in02/mod.rs` and `src/epd1in02/command.rs`).

The driver is embedded shallowly as computations in `EStateM` over a
state that records every observable interaction with the panel: the
number of bus-write calls issued so far, the number of idle-waits, the
ordered trace of transport actions, and the flat list of bytes written
on the bus.  The environment (`Env`) supplies two oracles: the outcome
of each bus-write call (the i-th write either succeeds or fails with a
transport error) and the outcome of each busy-line idle-wait.
-/

set_option maxRecDepth 8000

namespace Epd1in02

abbrev Byte := Nat

/-- Modelled from the spec: the logical color enumeration (`color.rs` is not
    among the given sources).  A small closed enumeration White/Black whose
    `get_byte_value` is the "single trivial mapping of a logical pixel value
    to its transmitted bit pattern" (spec, §1 and §9). -/
inductive Color where
  | Black
  | White
  deriving DecidableEq, Repr

/-- Modelled from the spec: the transmitted bit pattern of a logical color
    (all pixel bits set for White, cleared for Black). -/
def Color.get_byte_value : Color → Byte
  | Color.Black => 0x00
  | Color.White => 0xff

/-- Default background color (white), `DEFAULT_BACKGROUND_COLOR` in `mod.rs`. -/
def DEFAULT_BACKGROUND_COLOR : Color := Color.White

/-- Width of epd1in02 in pixels (`mod.rs`). -/
def WIDTH : Nat := 80

/-- Height of epd1in02 in pixels (`mod.rs`). -/
def HEIGHT : Nat := 128

/-- `NUM_DISPLAY_BITS = WIDTH * HEIGHT / 8` (`mod.rs`). -/
def NUM_DISPLAY_BITS : Nat := WIDTH * HEIGHT / 8

/-- SPI command opcodes of `command.rs`. -/
inductive Command where
  | PanelSetting
  | PowerSetting
  | PowerOff
  | PowerOn
  | ChargePumpSetting
  | DeepSleep
  | DataStartTransmission1
  | DisplayRefresh
  | DataStartTransmission2
  | LutForVcom
  | LutWhiteToWhite
  | LutBlackToWhite
  | LutG0
  | LutG1
  | LutRedVcom
  | LutRed0
  | LutRed1
  | LutOpt
  | PllControl
  | TemperatureSensor
  | TemperatureSensorSelection
  | VcomAndDataIntervalSetting
  | GateAndSourceNonOverlapPeriod
  | ResolutionSetting
  | VcmDcSetting
  | UnknownInit
  | PowerSaving
  deriving DecidableEq, Repr

/-- `Command::address`: the fixed byte value of each opcode (`command.rs`). -/
def Command.address : Command → Byte
  | Command.PanelSetting => 0x00
  | Command.PowerSetting => 0x01
  | Command.PowerOff => 0x02
  | Command.PowerOn => 0x04
  | Command.ChargePumpSetting => 0x06
  | Command.DeepSleep => 0x07
  | Command.DataStartTransmission1 => 0x10
  | Command.DisplayRefresh => 0x12
  | Command.DataStartTransmission2 => 0x13
  | Command.LutForVcom => 0x20
  | Command.LutWhiteToWhite => 0x21
  | Command.LutBlackToWhite => 0x22
  | Command.LutG0 => 0x23
  | Command.LutG1 => 0x24
  | Command.LutRedVcom => 0x25
  | Command.LutRed0 => 0x26
  | Command.LutRed1 => 0x27
  | Command.LutOpt => 0x2a
  | Command.PllControl => 0x30
  | Command.TemperatureSensor => 0x40
  | Command.TemperatureSensorSelection => 0x41
  | Command.VcomAndDataIntervalSetting => 0x50
  | Command.GateAndSourceNonOverlapPeriod => 0x60
  | Command.ResolutionSetting => 0x61
  | Command.VcmDcSetting => 0x82
  | Command.UnknownInit => 0xd2
  | Command.PowerSaving => 0xe3

/-- One observable transport action of the driver:
    a reset pulse (with its hold time in ms), a command-mode bus write of one
    opcode byte, a data-mode bus write of a byte slice, one busy-line
    idle-wait, or a fixed delay (ms). -/
inductive Act where
  | reset (ms : Nat)
  | cmdW (b : Byte)
  | dataW (bs : List Byte)
  | waitIdle
  | delay (ms : Nat)
  deriving DecidableEq, Repr

/-- Observable interaction state: number of bus-write calls issued, number of
    idle-waits performed, ordered action trace, and all bytes written on the
    bus (command and data bytes alike, in emission order). -/
structure St where
  nWrites : Nat
  nWaits : Nat
  trace : List Act
  written : List Byte
  deriving DecidableEq, Repr

/-- Outcome of a driver operation: either a transport failure propagated from
    a failed bus write (`SPI::Error` in the source), or the deliberate
    "unsupported operation" failure (the `unimplemented!()` fast-fail of
    `update_partial_frame`). -/
inductive DriverError (E : Type) where
  | transport (e : E)
  | unsupported
  deriving DecidableEq, Repr

/-- Environment oracles: `bus i` is the outcome of the i-th bus-write call
    (`none` = success, `some e` = the write fails with transport error `e`);
    `busy i` is the result returned by the transport adapter for the i-th
    busy-line idle-wait (busy-pin reads are fallible with errors of type `F`). -/
structure Env (E F : Type) where
  bus : Nat → Option E
  busy : Nat → Except F Unit

/-- Driver computations: state-threading with short-circuiting errors. -/
abbrev M (E : Type) (α : Type) := EStateM (DriverError E) St α

/-- One bus-write call of the byte slice `bs`, recorded in the trace as act
    `a`.  Consults the bus oracle at the current write index; on failure the
    error is surfaced verbatim as a transport error and nothing is written. -/
def busWrite {E F : Type} (env : Env E F) (a : Act) (bs : List Byte) : M E Unit := fun s =>
  match env.bus s.nWrites with
  | some e => EStateM.Result.error (DriverError.transport e) s
  | none =>
    EStateM.Result.ok () ⟨s.nWrites + 1, s.nWaits, s.trace ++ [a], s.written ++ bs⟩

/-- Execute one transport action.  Reset pulses, delays and idle-waits touch
    no bus; command and data writes are single bus-write calls. -/
def doAct {E F : Type} (env : Env E F) : Act → M E Unit
  | Act.reset ms => fun s =>
    EStateM.Result.ok () { s with trace := s.trace ++ [Act.reset ms] }
  | Act.delay ms => fun s =>
    EStateM.Result.ok () { s with trace := s.trace ++ [Act.delay ms] }
  | Act.waitIdle => fun s =>
    EStateM.Result.ok ()
      { s with nWaits := s.nWaits + 1, trace := s.trace ++ [Act.waitIdle] }
  | Act.cmdW b => busWrite env (Act.cmdW b) [b]
  | Act.dataW bs => busWrite env (Act.dataW bs) bs

namespace DisplayInterface

/-- Modelled from the spec (§4.1): the Transport Adapter's `command(opcode)` —
    one command-mode bus write of the opcode's single byte. -/
def cmd {E F : Type} (env : Env E F) (c : Command) : M E Unit :=
  doAct env (Act.cmdW (Command.address c))

/-- Modelled from the spec (§4.1, §6): the Transport Adapter's `data(bytes)` —
    one data-mode call of the byte-slice bus-write primitive. -/
def data {E F : Type} (env : Env E F) (bs : List Byte) : M E Unit :=
  doAct env (Act.dataW bs)

/-- Modelled from the spec (§4.1): `command_with_data(opcode, bytes)` —
    `command` followed immediately by `data`. -/
def cmd_with_data {E F : Type} (env : Env E F) (c : Command) (bs : List Byte) : M E Unit := do
  cmd env c
  data env bs

/-- Modelled from the spec (§4.1): `data_x_times` writes a single repeated
    byte n times without materializing an n-byte buffer, i.e. n one-byte
    data-mode bus-write calls. -/
def data_x_times {E F : Type} (env : Env E F) (b : Byte) : Nat → M E Unit
  | 0 => pure ()
  | n + 1 => do
    data env [b]
    data_x_times env b n

/-- Modelled from the spec (§4.1): `reset(hold_low_ms)` — a reset pulse on the
    reset GPIO line; no bus write. -/
def reset {E F : Type} (env : Env E F) (ms : Nat) : M E Unit :=
  doAct env (Act.reset ms)

/-- Modelled from the spec (§4.1): the adapter's `wait_until_idle` polls the
    busy line until idle; busy-pin reads are fallible, so the adapter returns
    a result value, supplied here by the `busy` oracle of the environment. -/
def wait_until_idle {E F : Type} (env : Env E F) : M E (Except F Unit) := fun s =>
  EStateM.Result.ok (env.busy s.nWaits)
    { s with nWaits := s.nWaits + 1, trace := s.trace ++ [Act.waitIdle] }

end DisplayInterface

/-- The delay primitive `delay.delay_ms(ms)` (spec §6): blocks, no bus write. -/
def delay_ms {E : Type} (ms : Nat) : M E Unit := fun s =>
  EStateM.Result.ok () { s with trace := s.trace ++ [Act.delay ms] }

/-- Driver state (`Epd1in02` struct of `mod.rs`): the logical background
    color.  The interface handles carry no observable state beyond the traces
    modelled in `St`. -/
structure Epd where
  color : Color
  deriving DecidableEq, Repr

/-- `Epd1in02::command` (`mod.rs`, line 234). -/
def command {E F : Type} (env : Env E F) (c : Command) : M E Unit :=
  DisplayInterface.cmd env c

/-- `Epd1in02::send_data` (`mod.rs`, line 238). -/
def send_data {E F : Type} (env : Env E F) (bs : List Byte) : M E Unit :=
  DisplayInterface.data env bs

/-- `Epd1in02::cmd_with_data` (`mod.rs`, line 242). -/
def cmd_with_data {E F : Type} (env : Env E F) (c : Command) (bs : List Byte) : M E Unit :=
  DisplayInterface.cmd_with_data env c bs

/-- `Epd1in02::wait_until_idle` (`mod.rs`, line 251): calls the adapter's
    idle-wait and discards its result (`let _ = ...`). -/
def wait_until_idle {E F : Type} (env : Env E F) : M E Unit := do
  let _ ← DisplayInterface.wait_until_idle env
  pure ()

/-- `Epd1in02::send_resolution` (`mod.rs`, lines 255-270): the resolution
    command, then one data byte `(WIDTH as u8) & 0b0111_1000`, then one data
    byte `HEIGHT as u8`. -/
def send_resolution {E F : Type} (env : Env E F) : M E Unit := do
  command env Command.ResolutionSetting
  send_data env [(WIDTH % 256) &&& 0b01111000]
  send_data env [HEIGHT % 256]

/-- `Epd1in02::set_full_reg` (`mod.rs`, lines 272-275): the two waveform-LUT
    loads.  The tables `LUT_W1`, `LUT_B1` live in `constants.rs`, which is not
    among the given sources, so they are taken as parameters. -/
def set_full_reg {E F : Type} (env : Env E F) (lutW1 lutB1 : List Byte) : M E Unit := do
  cmd_with_data env Command.LutG0 lutW1
  cmd_with_data env Command.LutG1 lutB1

/-- `Epd1in02::init` (`mod.rs`, lines 50-87): reset pulse, the fixed
    command+parameter writes, the two LUT loads, power-on, 5 ms settle delay,
    one idle-wait. -/
def init {E F : Type} (env : Env E F) (lutW1 lutB1 : List Byte) : M E Unit := do
  DisplayInterface.reset env 2
  cmd_with_data env Command.UnknownInit [0x3f]
  cmd_with_data env Command.PanelSetting [0x6f]
  cmd_with_data env Command.PowerSetting [0x03, 0x00, 0x2b, 0x2b]
  cmd_with_data env Command.ChargePumpSetting [0x3f]
  cmd_with_data env Command.LutOpt [0x00, 0x00]
  cmd_with_data env Command.PllControl [0x17]
  cmd_with_data env Command.VcomAndDataIntervalSetting [0x57]
  cmd_with_data env Command.GateAndSourceNonOverlapPeriod [0x22]
  send_resolution env
  cmd_with_data env Command.VcmDcSetting [0x12]
  cmd_with_data env Command.PowerSaving [0x33]
  set_full_reg env lutW1 lutB1
  command env Command.PowerOn
  delay_ms 5
  wait_until_idle env

/-- `Epd1in02::new` (`mod.rs`, lines 101-117): build the handle with the
    default background color, run `init`, return the handle. -/
def new {E F : Type} (env : Env E F) (lutW1 lutB1 : List Byte) : M E Epd := do
  let epd : Epd := { color := DEFAULT_BACKGROUND_COLOR }
  init env lutW1 lutB1
  pure epd

/-- `Epd1in02::sleep` (`mod.rs`, lines 119-127). -/
def sleep {E F : Type} (env : Env E F) : M E Unit := do
  wait_until_idle env
  command env Command.PowerOff
  wait_until_idle env
  cmd_with_data env Command.DeepSleep [0xa5]

/-- `Epd1in02::wake_up` (`mod.rs`, lines 129-131): delegates to `init`. -/
def wake_up {E F : Type} (env : Env E F) (lutW1 lutB1 : List Byte) : M E Unit :=
  init env lutW1 lutB1

/-- `Epd1in02::set_background_color` (`mod.rs`, line 133): a pure state update;
    the source function receives no bus or GPIO handle at all. -/
def set_background_color (epd : Epd) (c : Color) : Epd :=
  { epd with color := c }

/-- `Epd1in02::background_color` (`mod.rs`, line 137): a pure read. -/
def background_color (epd : Epd) : Color :=
  epd.color

/-- `Epd1in02::update_frame` (`mod.rs`, lines 149-163). -/
def update_frame {E F : Type} (env : Env E F) (epd : Epd) (buffer : List Byte) : M E Unit := do
  let color := epd.color.get_byte_value
  command env Command.DataStartTransmission1
  DisplayInterface.data_x_times env color NUM_DISPLAY_BITS
  wait_until_idle env
  cmd_with_data env Command.DataStartTransmission2 buffer

/-- `Epd1in02::update_partial_frame` (`mod.rs`, lines 165-176): the body is
    `unimplemented!()` — an immediate deliberate failure before any bus
    activity, modelled as the distinct `unsupported` outcome. -/
def update_partial_frame {E F : Type} (env : Env E F) (buffer : List Byte)
    (x y w h : Nat) : M E Unit := fun s =>
  EStateM.Result.error DriverError.unsupported s

/-- `Epd1in02::display_frame` (`mod.rs`, lines 178-183). -/
def display_frame {E F : Type} (env : Env E F) : M E Unit := do
  command env Command.DisplayRefresh
  wait_until_idle env

/-- `Epd1in02::update_and_display_frame` (`mod.rs`, lines 185-195). -/
def update_and_display_frame {E F : Type} (env : Env E F) (epd : Epd)
    (buffer : List Byte) : M E Unit := do
  update_frame env epd buffer
  display_frame env

/-- `Epd1in02::clear_frame` (`mod.rs`, lines 197-210): idle-wait, then both
    planes flood-filled with the default background color. -/
def clear_frame {E F : Type} (env : Env E F) (epd : Epd) : M E Unit := do
  wait_until_idle env
  let color := DEFAULT_BACKGROUND_COLOR.get_byte_value
  command env Command.DataStartTransmission1
  DisplayInterface.data_x_times env color NUM_DISPLAY_BITS
  command env Command.DataStartTransmission2
  DisplayInterface.data_x_times env color NUM_DISPLAY_BITS

/-- `Epd1in02::set_lut` (`mod.rs`, lines 212-218): a no-op returning success. -/
def set_lut {E F : Type} (env : Env E F) : M E Unit :=
  pure ()

/-! ### A generic executor over action lists, and the action lists the
    driver operations reduce to. -/

/-- Execute a list of transport actions in order. -/
def execActs {E F : Type} (env : Env E F) : List Act → M E Unit
  | [] => pure ()
  | a :: r => do
    doAct env a
    execActs env r

/-- Number of bus-write calls an action list performs. -/
def writeCount : List Act → Nat
  | [] => 0
  | Act.reset _ :: r => writeCount r
  | Act.delay _ :: r => writeCount r
  | Act.waitIdle :: r => writeCount r
  | Act.cmdW _ :: r => writeCount r + 1
  | Act.dataW _ :: r => writeCount r + 1

/-- Number of idle-waits an action list performs. -/
def waitCount : List Act → Nat
  | [] => 0
  | Act.reset _ :: r => waitCount r
  | Act.delay _ :: r => waitCount r
  | Act.waitIdle :: r => waitCount r + 1
  | Act.cmdW _ :: r => waitCount r
  | Act.dataW _ :: r => waitCount r

/-- All bytes an action list writes on the bus, in order. -/
def writtenBytes : List Act → List Byte
  | [] => []
  | Act.reset _ :: r => writtenBytes r
  | Act.delay _ :: r => writtenBytes r
  | Act.waitIdle :: r => writtenBytes r
  | Act.cmdW b :: r => b :: writtenBytes r
  | Act.dataW bs :: r => bs ++ writtenBytes r

/-- Bytes of the first k bus-write calls of an action list. -/
def writtenBytesUpTo : Nat → List Act → List Byte
  | _, [] => []
  | k, Act.reset _ :: r => writtenBytesUpTo k r
  | k, Act.delay _ :: r => writtenBytesUpTo k r
  | k, Act.waitIdle :: r => writtenBytesUpTo k r
  | 0, Act.cmdW _ :: _ => []
  | k + 1, Act.cmdW b :: r => b :: writtenBytesUpTo k r
  | 0, Act.dataW _ :: _ => []
  | k + 1, Act.dataW bs :: r => bs ++ writtenBytesUpTo k r

/-- The bytes an action list writes in data mode only (command bytes
    excluded): the payload stream. -/
def dataBytesOf : List Act → List Byte
  | [] => []
  | Act.reset _ :: r => dataBytesOf r
  | Act.delay _ :: r => dataBytesOf r
  | Act.waitIdle :: r => dataBytesOf r
  | Act.cmdW _ :: r => dataBytesOf r
  | Act.dataW bs :: r => bs ++ dataBytesOf r

/-- The action list of `init` (and hence of `new` and `wake_up`). -/
def initActs (lutW1 lutB1 : List Byte) : List Act :=
  [Act.reset 2,
   Act.cmdW 0xd2, Act.dataW [0x3f],
   Act.cmdW 0x00, Act.dataW [0x6f],
   Act.cmdW 0x01, Act.dataW [0x03, 0x00, 0x2b, 0x2b],
   Act.cmdW 0x06, Act.dataW [0x3f],
   Act.cmdW 0x2a, Act.dataW [0x00, 0x00],
   Act.cmdW 0x30, Act.dataW [0x17],
   Act.cmdW 0x50, Act.dataW [0x57],
   Act.cmdW 0x60, Act.dataW [0x22],
   Act.cmdW 0x61, Act.dataW [0x50], Act.dataW [0x80],
   Act.cmdW 0x82, Act.dataW [0x12],
   Act.cmdW 0xe3, Act.dataW [0x33],
   Act.cmdW 0x23, Act.dataW lutW1,
   Act.cmdW 0x24, Act.dataW lutB1,
   Act.cmdW 0x04,
   Act.delay 5,
   Act.waitIdle]

/-- The action list of `sleep`. -/
def sleepActs : List Act :=
  [Act.waitIdle, Act.cmdW 0x02, Act.waitIdle, Act.cmdW 0x07, Act.dataW [0xa5]]

/-- The action list of `update_frame` for background color `c` and frame
    buffer `buffer`. -/
def updateFrameActs (c : Color) (buffer : List Byte) : List Act :=
  Act.cmdW 0x10 ::
    (List.replicate NUM_DISPLAY_BITS (Act.dataW [c.get_byte_value]) ++
      [Act.waitIdle, Act.cmdW 0x13, Act.dataW buffer])

/-- The action list of `display_frame`. -/
def displayFrameActs : List Act :=
  [Act.cmdW 0x12, Act.waitIdle]

/-- The action list of `clear_frame` (independent of the current color). -/
def clearFrameActs : List Act :=
  Act.waitIdle :: Act.cmdW 0x10 ::
    (List.replicate NUM_DISPLAY_BITS
        (Act.dataW [DEFAULT_BACKGROUND_COLOR.get_byte_value]) ++
      Act.cmdW 0x13 ::
        List.replicate NUM_DISPLAY_BITS
          (Act.dataW [DEFAULT_BACKGROUND_COLOR.get_byte_value]))

/-- The fresh interaction state. -/
def st0 : St := ⟨0, 0, [], []⟩

/-- A bus on which every write succeeds, with an always-idle busy line. -/
def okEnv : Env Nat Nat :=
  ⟨fun _ => none, fun _ => Except.ok ()⟩

/-- A busy-line oracle on which every idle-wait succeeds. -/
def okBusy : Nat → Except Nat Unit := fun _ => Except.ok ()

/-- An environment whose j-th bus-write call fails with transport error `e`
    and all other writes succeed. -/
def failEnv {E F : Type} (j : Nat) (e : E) (busy : Nat → Except F Unit) : Env E F :=
  ⟨fun k => if k = j then some e else none, busy⟩

/-! ### Monad plumbing and executor lemmas -/

theorem width_mask_eq : (80 : Nat) &&& 120 = 80 := by decide

theorem mBindPureUnit {E : Type} (x : M E Unit) :
    (do x; pure ()) = x := by
  funext s
  show EStateM.bind x (fun _ => EStateM.pure ()) s = x s
  unfold EStateM.bind EStateM.pure
  cases x s <;> rfl

theorem execActs_append {E F : Type} (env : Env E F) (l1 l2 : List Act) :
    execActs env (l1 ++ l2) = (do execActs env l1; execActs env l2) := by
  induction l1 with
  | nil => simp [execActs]
  | cons a r ih => simp [execActs, ih, bind_assoc]

theorem wait_until_idle_nf {E F : Type} (env : Env E F) :
    wait_until_idle env = doAct env Act.waitIdle := rfl

theorem delay_ms_nf {E F : Type} (env : Env E F) (ms : Nat) :
    (delay_ms ms : M E Unit) = doAct env (Act.delay ms) := rfl

theorem data_x_times_nf {E F : Type} (env : Env E F) (b : Byte) (n : Nat) :
    DisplayInterface.data_x_times env b n =
      execActs env (List.replicate n (Act.dataW [b])) := by
  induction n with
  | zero => rfl
  | succ n ih =>
    simp [DisplayInterface.data_x_times, execActs, List.replicate_succ, ih,
      DisplayInterface.data]

theorem init_nf {E F : Type} (env : Env E F) (lutW1 lutB1 : List Byte) :
    init env lutW1 lutB1 = execActs env (initActs lutW1 lutB1) := by
  simp [init, initActs, execActs, command, cmd_with_data, send_data,
    send_resolution, set_full_reg, DisplayInterface.cmd, DisplayInterface.data,
    DisplayInterface.cmd_with_data, DisplayInterface.reset, Command.address,
    wait_until_idle_nf, delay_ms_nf env, bind_assoc, mBindPureUnit, WIDTH, HEIGHT,
    width_mask_eq]

theorem new_nf {E F : Type} (env : Env E F) (lutW1 lutB1 : List Byte) :
    new env lutW1 lutB1 =
      (do execActs env (initActs lutW1 lutB1); pure ⟨DEFAULT_BACKGROUND_COLOR⟩) := by
  simp [new, init_nf]

theorem sleep_nf {E F : Type} (env : Env E F) :
    sleep env = execActs env sleepActs := by
  simp [sleep, sleepActs, execActs, command, cmd_with_data,
    DisplayInterface.cmd, DisplayInterface.data, DisplayInterface.cmd_with_data,
    Command.address, wait_until_idle_nf, bind_assoc, mBindPureUnit]

theorem update_frame_nf {E F : Type} (env : Env E F) (epd : Epd) (buffer : List Byte) :
    update_frame env epd buffer = execActs env (updateFrameActs epd.color buffer) := by
  have h1 : updateFrameActs epd.color buffer =
      [Act.cmdW 0x10] ++
        (List.replicate NUM_DISPLAY_BITS (Act.dataW [epd.color.get_byte_value]) ++
          [Act.waitIdle, Act.cmdW 0x13, Act.dataW buffer]) := rfl
  rw [h1, execActs_append, execActs_append, ← data_x_times_nf]
  simp [update_frame, command, cmd_with_data, DisplayInterface.cmd,
    DisplayInterface.data, DisplayInterface.cmd_with_data, Command.address,
    wait_until_idle_nf, execActs, bind_assoc, mBindPureUnit]

theorem display_frame_nf {E F : Type} (env : Env E F) :
    display_frame env = execActs env displayFrameActs := by
  simp [display_frame, displayFrameActs, command, DisplayInterface.cmd,
    Command.address, wait_until_idle_nf, execActs, bind_assoc, mBindPureUnit]

theorem update_and_display_frame_nf {E F : Type} (env : Env E F) (epd : Epd)
    (buffer : List Byte) :
    update_and_display_frame env epd buffer =
      execActs env (updateFrameActs epd.color buffer ++ displayFrameActs) := by
  simp [update_and_display_frame, update_frame_nf, display_frame_nf,
    execActs_append]

theorem clear_frame_nf {E F : Type} (env : Env E F) (epd : Epd) :
    clear_frame env epd = execActs env clearFrameActs := by
  have h1 : clearFrameActs =
      [Act.waitIdle, Act.cmdW 0x10] ++
        (List.replicate NUM_DISPLAY_BITS
            (Act.dataW [DEFAULT_BACKGROUND_COLOR.get_byte_value]) ++
          ([Act.cmdW 0x13] ++
            List.replicate NUM_DISPLAY_BITS
              (Act.dataW [DEFAULT_BACKGROUND_COLOR.get_byte_value]))) := rfl
  rw [h1, execActs_append, execActs_append, execActs_append, ← data_x_times_nf]
  simp [clear_frame, command, DisplayInterface.cmd, Command.address,
    wait_until_idle_nf, execActs, bind_assoc, mBindPureUnit]

/-! ### Generic execution lemmas -/

theorem run_ok {E F : Type} (env : Env E F) (hbus : ∀ i, env.bus i = none) :
    ∀ (acts : List Act) (s : St),
      execActs env acts s =
        EStateM.Result.ok ()
          ⟨s.nWrites + writeCount acts, s.nWaits + waitCount acts,
           s.trace ++ acts, s.written ++ writtenBytes acts⟩ := by
  intro acts
  induction acts with
  | nil =>
    intro s
    simp [execActs, writeCount, waitCount, writtenBytes, Pure.pure, EStateM.pure]
  | cons a r ih =>
    intro s
    cases a <;>
      simp [execActs, doAct, busWrite, hbus, ih, writeCount, waitCount,
        writtenBytes, List.append_assoc, Bind.bind, EStateM.bind,
        EStateM.Result.ok.injEq, St.mk.injEq] <;>
      omega

theorem mBindOk {E : Type} {α β : Type} {x : M E α} {f : α → M E β} {s s' : St}
    {a : α} (hx : x s = EStateM.Result.ok a s') : (x >>= f) s = f a s' := by
  show EStateM.bind x f s = f a s'
  unfold EStateM.bind
  rw [hx]

theorem mBindErr {E : Type} {α β : Type} {x : M E α} {f : α → M E β} {s s' : St}
    {err : DriverError E} (hx : x s = EStateM.Result.error err s') :
    (x >>= f) s = EStateM.Result.error err s' := by
  show EStateM.bind x f s = EStateM.Result.error err s'
  unfold EStateM.bind
  rw [hx]

theorem execActs_cons_ok {E F : Type} (env : Env E F) {a : Act} {r : List Act}
    {s s' : St} (ha : doAct env a s = EStateM.Result.ok () s') :
    execActs env (a :: r) s = execActs env r s' := by
  simp only [execActs]
  exact mBindOk ha

theorem execActs_cons_err {E F : Type} (env : Env E F) {a : Act} {r : List Act}
    {s s' : St} {err : DriverError E}
    (ha : doAct env a s = EStateM.Result.error err s') :
    execActs env (a :: r) s = EStateM.Result.error err s' := by
  simp only [execActs]
  exact mBindErr ha

theorem run_fail {E F : Type} (e : E) (busy : Nat → Except F Unit) :
    ∀ (acts : List Act) (s : St) (j : Nat), s.nWrites ≤ j →
      j < s.nWrites + writeCount acts →
      ∃ nwa tr, execActs (failEnv j e busy) acts s =
        EStateM.Result.error (DriverError.transport e)
          ⟨j, nwa, tr, s.written ++ writtenBytesUpTo (j - s.nWrites) acts⟩ := by
  intro acts
  induction acts with
  | nil =>
    intro s j h1 h2
    simp [writeCount] at h2
    omega
  | cons a r ih =>
    intro s j h1 h2
    cases a with
    | reset ms =>
      obtain ⟨nwa, tr, h⟩ := ih { s with trace := s.trace ++ [Act.reset ms] } j h1
        (by simpa [writeCount] using h2)
      refine ⟨nwa, tr, ?_⟩
      have hstep : doAct (failEnv j e busy) (Act.reset ms) s =
          EStateM.Result.ok () { s with trace := s.trace ++ [Act.reset ms] } := by
        simp [doAct]
      rw [execActs_cons_ok _ hstep, h]
      simp [writtenBytesUpTo]
    | delay ms =>
      obtain ⟨nwa, tr, h⟩ := ih { s with trace := s.trace ++ [Act.delay ms] } j h1
        (by simpa [writeCount] using h2)
      refine ⟨nwa, tr, ?_⟩
      have hstep : doAct (failEnv j e busy) (Act.delay ms) s =
          EStateM.Result.ok () { s with trace := s.trace ++ [Act.delay ms] } := by
        simp [doAct]
      rw [execActs_cons_ok _ hstep, h]
      simp [writtenBytesUpTo]
    | waitIdle =>
      obtain ⟨nwa, tr, h⟩ := ih
        { s with nWaits := s.nWaits + 1, trace := s.trace ++ [Act.waitIdle] } j h1
        (by simpa [writeCount] using h2)
      refine ⟨nwa, tr, ?_⟩
      have hstep : doAct (failEnv j e busy) Act.waitIdle s =
          EStateM.Result.ok ()
            { s with nWaits := s.nWaits + 1, trace := s.trace ++ [Act.waitIdle] } := by
        simp [doAct]
      rw [execActs_cons_ok _ hstep, h]
      simp [writtenBytesUpTo]
    | cmdW b =>
      by_cases hj : s.nWrites = j
      · refine ⟨s.nWaits, s.trace, ?_⟩
        subst hj
        have hstep : doAct (failEnv s.nWrites e busy) (Act.cmdW b) s =
            EStateM.Result.error (DriverError.transport e) s := by
          simp [doAct, busWrite, failEnv]
        rw [execActs_cons_err _ hstep]
        simp [writtenBytesUpTo, Nat.sub_self]
      · have hlt : s.nWrites < j := lt_of_le_of_ne h1 hj
        obtain ⟨k, hk⟩ : ∃ k, j - s.nWrites = k + 1 := ⟨j - s.nWrites - 1, by omega⟩
        obtain ⟨nwa, tr, h⟩ := ih
          ⟨s.nWrites + 1, s.nWaits, s.trace ++ [Act.cmdW b], s.written ++ [b]⟩ j
          (show s.nWrites + 1 ≤ j by omega)
          (show j < s.nWrites + 1 + writeCount r by
            simp [writeCount] at h2; omega)
        refine ⟨nwa, tr, ?_⟩
        have hstep : doAct (failEnv j e busy) (Act.cmdW b) s =
            EStateM.Result.ok ()
              ⟨s.nWrites + 1, s.nWaits, s.trace ++ [Act.cmdW b], s.written ++ [b]⟩ := by
          simp [doAct, busWrite, failEnv, if_neg hj]
        rw [execActs_cons_ok _ hstep, h]
        have hk' : j - (s.nWrites + 1) = k := by omega
        simp [hk', hk, writtenBytesUpTo, List.append_assoc]
    | dataW bs =>
      by_cases hj : s.nWrites = j
      · refine ⟨s.nWaits, s.trace, ?_⟩
        subst hj
        have hstep : doAct (failEnv s.nWrites e busy) (Act.dataW bs) s =
            EStateM.Result.error (DriverError.transport e) s := by
          simp [doAct, busWrite, failEnv]
        rw [execActs_cons_err _ hstep]
        simp [writtenBytesUpTo, Nat.sub_self]
      · have hlt : s.nWrites < j := lt_of_le_of_ne h1 hj
        obtain ⟨k, hk⟩ : ∃ k, j - s.nWrites = k + 1 := ⟨j - s.nWrites - 1, by omega⟩
        obtain ⟨nwa, tr, h⟩ := ih
          ⟨s.nWrites + 1, s.nWaits, s.trace ++ [Act.dataW bs], s.written ++ bs⟩ j
          (show s.nWrites + 1 ≤ j by omega)
          (show j < s.nWrites + 1 + writeCount r by
            simp [writeCount] at h2; omega)
        refine ⟨nwa, tr, ?_⟩
        have hstep : doAct (failEnv j e busy) (Act.dataW bs) s =
            EStateM.Result.ok ()
              ⟨s.nWrites + 1, s.nWaits, s.trace ++ [Act.dataW bs], s.written ++ bs⟩ := by
          simp [doAct, busWrite, failEnv, if_neg hj]
        rw [execActs_cons_ok _ hstep, h]
        have hk' : j - (s.nWrites + 1) = k := by omega
        simp [hk', hk, writtenBytesUpTo, List.append_assoc]

theorem doAct_busy_irrel {E F : Type} (bus : Nat → Option E)
    (b1 b2 : Nat → Except F Unit) (a : Act) :
    doAct ⟨bus, b1⟩ a = doAct ⟨bus, b2⟩ a := by
  cases a <;> rfl

theorem execActs_busy_irrel {E F : Type} (bus : Nat → Option E)
    (b1 b2 : Nat → Except F Unit) (acts : List Act) :
    execActs ⟨bus, b1⟩ acts = execActs ⟨bus, b2⟩ acts := by
  induction acts with
  | nil => rfl
  | cons a r ih => simp [execActs, doAct_busy_irrel bus b1 b2, ih]

/-- A driver outcome contains no busy-line-originated failure: it is either a
    success or a propagated bus-write transport error (in particular never the
    `unsupported` signal and never anything derived from the busy oracle). -/
def transportOnly {E : Type} {α : Type} : EStateM.Result (DriverError E) St α → Prop
  | EStateM.Result.ok _ _ => True
  | EStateM.Result.error (DriverError.transport _) _ => True
  | EStateM.Result.error DriverError.unsupported _ => False

theorem execActs_transportOnly {E F : Type} (env : Env E F) :
    ∀ (acts : List Act) (s : St), transportOnly (execActs env acts s) := by
  intro acts
  induction acts with
  | nil =>
    intro s
    simp [execActs, Pure.pure, EStateM.pure, transportOnly]
  | cons a r ih =>
    intro s
    cases a <;> simp only [execActs, doAct, busWrite, Bind.bind, EStateM.bind]
    case reset ms => exact ih _
    case delay ms => exact ih _
    case waitIdle => exact ih _
    case cmdW b =>
      cases hb : env.bus s.nWrites with
      | some e => simp [transportOnly]
      | none => exact ih _
    case dataW bs =>
      cases hb : env.bus s.nWrites with
      | some e => simp [transportOnly]
      | none => exact ih _

/-! ### Counting lemmas -/

theorem writeCount_append : ∀ l1 l2 : List Act,
    writeCount (l1 ++ l2) = writeCount l1 + writeCount l2 := by
  intro l1 l2
  induction l1 with
  | nil => simp [writeCount]
  | cons a r ih => cases a <;> simp [writeCount, ih] <;> omega

theorem waitCount_append : ∀ l1 l2 : List Act,
    waitCount (l1 ++ l2) = waitCount l1 + waitCount l2 := by
  intro l1 l2
  induction l1 with
  | nil => simp [waitCount]
  | cons a r ih => cases a <;> simp [waitCount, ih] <;> omega

theorem writtenBytes_append : ∀ l1 l2 : List Act,
    writtenBytes (l1 ++ l2) = writtenBytes l1 ++ writtenBytes l2 := by
  intro l1 l2
  induction l1 with
  | nil => simp [writtenBytes]
  | cons a r ih => cases a <;> simp [writtenBytes, ih]

theorem dataBytesOf_append : ∀ l1 l2 : List Act,
    dataBytesOf (l1 ++ l2) = dataBytesOf l1 ++ dataBytesOf l2 := by
  intro l1 l2
  induction l1 with
  | nil => simp [dataBytesOf]
  | cons a r ih => cases a <;> simp [dataBytesOf, ih]

theorem writeCount_replicate (n : Nat) (b : Byte) :
    writeCount (List.replicate n (Act.dataW [b])) = n := by
  induction n with
  | zero => simp [writeCount]
  | succ n ih => simp [List.replicate_succ, writeCount, ih]

theorem waitCount_replicate (n : Nat) (b : Byte) :
    waitCount (List.replicate n (Act.dataW [b])) = 0 := by
  induction n with
  | zero => simp [waitCount]
  | succ n ih => simp [List.replicate_succ, waitCount, ih]

theorem writtenBytes_replicate (n : Nat) (b : Byte) :
    writtenBytes (List.replicate n (Act.dataW [b])) = List.replicate n b := by
  induction n with
  | zero => simp [writtenBytes]
  | succ n ih => simp [List.replicate_succ, writtenBytes, ih]

theorem dataBytesOf_replicate (n : Nat) (b : Byte) :
    dataBytesOf (List.replicate n (Act.dataW [b])) = List.replicate n b := by
  induction n with
  | zero => simp [dataBytesOf]
  | succ n ih => simp [List.replicate_succ, dataBytesOf, ih]

theorem writeCount_cons_cmdW (b : Byte) (r : List Act) :
    writeCount (Act.cmdW b :: r) = writeCount r + 1 := rfl

theorem writeCount_cons_waitIdle (r : List Act) :
    writeCount (Act.waitIdle :: r) = writeCount r := rfl

theorem waitCount_cons_cmdW (b : Byte) (r : List Act) :
    waitCount (Act.cmdW b :: r) = waitCount r := rfl

theorem waitCount_cons_waitIdle (r : List Act) :
    waitCount (Act.waitIdle :: r) = waitCount r + 1 := rfl

theorem writtenBytes_cons_cmdW (b : Byte) (r : List Act) :
    writtenBytes (Act.cmdW b :: r) = b :: writtenBytes r := rfl

theorem writtenBytes_cons_waitIdle (r : List Act) :
    writtenBytes (Act.waitIdle :: r) = writtenBytes r := rfl

theorem dataBytesOf_cons_cmdW (b : Byte) (r : List Act) :
    dataBytesOf (Act.cmdW b :: r) = dataBytesOf r := rfl

theorem dataBytesOf_cons_waitIdle (r : List Act) :
    dataBytesOf (Act.waitIdle :: r) = dataBytesOf r := rfl

theorem num_bits_1280 : NUM_DISPLAY_BITS = 1280 := rfl

theorem waitCount_initActs (l1 l2 : List Byte) : waitCount (initActs l1 l2) = 1 := rfl

theorem waitCount_sleepActs : waitCount sleepActs = 2 := rfl

theorem stats_updateFrameActs (c : Color) (buffer : List Byte) :
    writeCount (updateFrameActs c buffer) = NUM_DISPLAY_BITS + 3
    ∧ waitCount (updateFrameActs c buffer) = 1
    ∧ writtenBytes (updateFrameActs c buffer) =
        0x10 :: (List.replicate NUM_DISPLAY_BITS c.get_byte_value ++ 0x13 :: buffer) := by
  refine ⟨?_, ?_, ?_⟩
  · simp only [updateFrameActs, writeCount_cons_cmdW, writeCount_append,
      writeCount_replicate]
    rw [show writeCount [Act.waitIdle, Act.cmdW 0x13, Act.dataW buffer] = 2 from rfl]
  · simp only [updateFrameActs, waitCount_cons_cmdW, waitCount_append,
      waitCount_replicate]
    rw [show waitCount [Act.waitIdle, Act.cmdW 0x13, Act.dataW buffer] = 1 from rfl]
  · simp only [updateFrameActs, writtenBytes_cons_cmdW, writtenBytes_append,
      writtenBytes_replicate]
    rw [show writtenBytes [Act.waitIdle, Act.cmdW 0x13, Act.dataW buffer] =
      0x13 :: (buffer ++ []) from rfl]
    simp

theorem stats_clearFrameActs :
    writeCount clearFrameActs = 2 * NUM_DISPLAY_BITS + 2
    ∧ waitCount clearFrameActs = 1
    ∧ writtenBytes clearFrameActs =
        0x10 :: (List.replicate NUM_DISPLAY_BITS DEFAULT_BACKGROUND_COLOR.get_byte_value ++
          0x13 :: List.replicate NUM_DISPLAY_BITS DEFAULT_BACKGROUND_COLOR.get_byte_value)
    ∧ dataBytesOf clearFrameActs =
        List.replicate (2 * NUM_DISPLAY_BITS) DEFAULT_BACKGROUND_COLOR.get_byte_value := by
  have hsplit : clearFrameActs =
      Act.waitIdle :: Act.cmdW 0x10 ::
        (List.replicate NUM_DISPLAY_BITS
            (Act.dataW [DEFAULT_BACKGROUND_COLOR.get_byte_value]) ++
          Act.cmdW 0x13 ::
            List.replicate NUM_DISPLAY_BITS
              (Act.dataW [DEFAULT_BACKGROUND_COLOR.get_byte_value])) := rfl
  refine ⟨?_, ?_, ?_, ?_⟩
  · rw [hsplit, writeCount_cons_waitIdle, writeCount_cons_cmdW, writeCount_append,
      writeCount_replicate, writeCount_cons_cmdW, writeCount_replicate]
    omega
  · rw [hsplit, waitCount_cons_waitIdle, waitCount_cons_cmdW, waitCount_append,
      waitCount_replicate, waitCount_cons_cmdW, waitCount_replicate]
  · rw [hsplit, writtenBytes_cons_waitIdle, writtenBytes_cons_cmdW,
      writtenBytes_append, writtenBytes_replicate, writtenBytes_cons_cmdW,
      writtenBytes_replicate]
  · rw [hsplit, dataBytesOf_cons_waitIdle, dataBytesOf_cons_cmdW,
      dataBytesOf_append, dataBytesOf_replicate, dataBytesOf_cons_cmdW,
      dataBytesOf_replicate, two_mul, List.replicate_add]

theorem transportOnly_bind {E : Type} {α β : Type} (x : M E α) (f : α → M E β)
    (s : St) (hx : transportOnly (x s)) (hf : ∀ a s', transportOnly (f a s')) :
    transportOnly ((x >>= f) s) := by
  cases h : x s with
  | ok a s' => rw [mBindOk h]; exact hf a s'
  | error err s' =>
    rw [mBindErr h]
    rw [h] at hx
    cases err with
    | transport e => exact True.intro
    | unsupported => exact False.elim hx

theorem transportOnly_pure {E : Type} {α : Type} (v : α) (s : St) :
    transportOnly ((pure v : M E α) s) := by
  simp [Pure.pure, EStateM.pure, transportOnly]

/-- The trace recorded by a driver outcome, successful or not. -/
def traceOf {α : Type} : EStateM.Result (DriverError Nat) St α → List Act
  | EStateM.Result.ok _ s => s.trace
  | EStateM.Result.error _ s => s.trace

/-! ### Claims -/

/-- C1: for every argument tuple, `update_partial_frame` fails with the
    distinct "unsupported" signal — an error distinguishable from every
    transport failure — and leaves the interaction state untouched, so it
    performs zero bus writes before failing. -/
theorem C1_update_partial_frame_unsupported {E F : Type} (env : Env E F)
    (buffer : List Byte) (px py pw ph : Nat) (s : St) :
    update_partial_frame env buffer px py pw ph s =
      EStateM.Result.error DriverError.unsupported s
    ∧ ∀ e : E, (DriverError.unsupported : DriverError E) ≠ DriverError.transport e :=
  ⟨rfl, fun _ h' => DriverError.noConfusion h'⟩

/-- The cold-init sequence exactly as claim C2 enumerates it: a reset pulse,
    then the command+parameter writes panel setting, power setting, charge
    pump, LUT-optimization, PLL/clock, VCOM-and-data-interval, gate/source
    non-overlap period, resolution, VCOM-DC, power-saving, then the two
    waveform-LUT loads, then power-on, then the settle delay, then one
    idle-wait — and nothing else. -/
def initActsClaimed (lutW1 lutB1 : List Byte) : List Act :=
  [Act.reset 2,
   Act.cmdW 0x00, Act.dataW [0x6f],
   Act.cmdW 0x01, Act.dataW [0x03, 0x00, 0x2b, 0x2b],
   Act.cmdW 0x06, Act.dataW [0x3f],
   Act.cmdW 0x2a, Act.dataW [0x00, 0x00],
   Act.cmdW 0x30, Act.dataW [0x17],
   Act.cmdW 0x50, Act.dataW [0x57],
   Act.cmdW 0x60, Act.dataW [0x22],
   Act.cmdW 0x61, Act.dataW [0x50], Act.dataW [0x80],
   Act.cmdW 0x82, Act.dataW [0x12],
   Act.cmdW 0xe3, Act.dataW [0x33],
   Act.cmdW 0x23, Act.dataW lutW1,
   Act.cmdW 0x24, Act.dataW lutB1,
   Act.cmdW 0x04,
   Act.delay 5,
   Act.waitIdle]

/-- C2 counterexample: construction does NOT emit exactly the sequence the
    claim enumerates.  On an all-successful bus the actual trace is
    `initActs` — which contains an additional undocumented write (command
    byte 0xd2 with payload 0x3f) between the reset pulse and the panel
    setting — and differs from the claimed sequence. -/
theorem C2_counterexample :
    traceOf (new okEnv [] [] st0) = initActs [] []
    ∧ traceOf (new okEnv [] [] st0) ≠ initActsClaimed [] [] := by
  exact ⟨by decide, by decide⟩

/-- C2 (amended): constructing the driver emits exactly, in order: the reset
    pulse, the undocumented 0xd2-write with payload 0x3f, then the fixed
    command+parameter writes (panel setting 0x00/0x6f, power setting
    0x01/03-00-2b-2b, charge pump 0x06/0x3f, LUT-optimization 0x2a/00-00,
    PLL 0x30/0x17, VCOM-and-data-interval 0x50/0x57, gate/source non-overlap
    0x60/0x22, resolution 0x61/0x50-0x80, VCOM-DC 0x82/0x12, power saving
    0xe3/0x33), then the two waveform-LUT loads (0x23, 0x24), then power-on
    (0x04), then the 5 ms settle delay, then one idle-wait; and if the j-th
    bus write fails, construction surfaces that failure and the bytes written
    are exactly those of the first j writes — none after it. -/
theorem C2_new_init_sequence {E F : Type} (env : Env E F)
    (lutW1 lutB1 : List Byte) (hbus : ∀ i, env.bus i = none) :
    new env lutW1 lutB1 st0 =
      EStateM.Result.ok ⟨DEFAULT_BACKGROUND_COLOR⟩
        ⟨writeCount (initActs lutW1 lutB1), 1, initActs lutW1 lutB1,
         writtenBytes (initActs lutW1 lutB1)⟩
    ∧ ∀ (j : Nat) (e : E) (busy : Nat → Except F Unit),
        j < writeCount (initActs lutW1 lutB1) →
        ∃ nwa tr, new (failEnv j e busy) lutW1 lutB1 st0 =
          EStateM.Result.error (DriverError.transport e)
            ⟨j, nwa, tr, writtenBytesUpTo j (initActs lutW1 lutB1)⟩ := by
  constructor
  · rw [new_nf, mBindOk (run_ok env hbus (initActs lutW1 lutB1) st0)]
    simp [st0, Pure.pure, EStateM.pure, waitCount_initActs]
  · intro j e busy hj
    obtain ⟨nwa, tr, h⟩ := run_fail e busy (initActs lutW1 lutB1) st0 j
      (by simp [st0]) (by simpa [st0] using hj)
    refine ⟨nwa, tr, ?_⟩
    rw [new_nf, mBindErr h]
    simp [st0]

/-- C2 witness: the amended theorem applied at a concrete all-successful
    environment and concrete LUT tables. -/
theorem C2_witness :
    (∀ i, okEnv.bus i = none)
    ∧ (new okEnv [1] [2] st0 =
        EStateM.Result.ok ⟨DEFAULT_BACKGROUND_COLOR⟩
          ⟨writeCount (initActs [1] [2]), 1, initActs [1] [2],
           writtenBytes (initActs [1] [2])⟩
      ∧ ∀ (j : Nat) (e : Nat) (busy : Nat → Except Nat Unit),
          j < writeCount (initActs [1] [2]) →
          ∃ nwa tr, new (failEnv j e busy) [1] [2] st0 =
            EStateM.Result.error (DriverError.transport e)
              ⟨j, nwa, tr, writtenBytesUpTo j (initActs [1] [2])⟩) :=
  ⟨fun _ => rfl, C2_new_init_sequence okEnv [1] [2] (fun _ => rfl)⟩

/-- C3: for every buffer of length L, `update_frame` emits the chromatic-plane
    select command (0x10), then a flood-fill of width*height/8 = 1280 one-byte
    data writes each equal to the current background color's encoded byte,
    then blocks once for idle, then emits the monochrome-plane select command
    (0x13) followed by exactly the L bytes of `buffer` unmodified — in that
    order. -/
theorem C3_update_frame {E F : Type} (env : Env E F) (epd : Epd)
    (buffer : List Byte) (hbus : ∀ i, env.bus i = none) :
    update_frame env epd buffer st0 =
      EStateM.Result.ok ()
        ⟨1283, 1,
         Act.cmdW 0x10 ::
           (List.replicate 1280 (Act.dataW [epd.color.get_byte_value]) ++
             [Act.waitIdle, Act.cmdW 0x13, Act.dataW buffer]),
         0x10 :: (List.replicate 1280 epd.color.get_byte_value ++ 0x13 :: buffer)⟩
    ∧ WIDTH * HEIGHT / 8 = 1280 := by
  obtain ⟨hw, hwait, hbytes⟩ := stats_updateFrameActs epd.color buffer
  refine ⟨?_, by decide⟩
  rw [update_frame_nf, run_ok env hbus, hw, hwait, hbytes]
  simp only [updateFrameActs, num_bits_1280, st0, List.nil_append, Nat.zero_add,
    Nat.reduceAdd]

/-- C3 witness: the theorem applied at a concrete environment, a handle whose
    current background color is black, and a two-byte buffer. -/
theorem C3_witness :
    (∀ i, okEnv.bus i = none)
    ∧ (update_frame okEnv ⟨Color.Black⟩ [3, 4] st0 =
        EStateM.Result.ok ()
          ⟨1283, 1,
           Act.cmdW 0x10 ::
             (List.replicate 1280 (Act.dataW [Color.Black.get_byte_value]) ++
               [Act.waitIdle, Act.cmdW 0x13, Act.dataW [3, 4]]),
           0x10 :: (List.replicate 1280 Color.Black.get_byte_value ++ 0x13 :: [3, 4])⟩
      ∧ WIDTH * HEIGHT / 8 = 1280) :=
  ⟨fun _ => rfl, C3_update_frame okEnv ⟨Color.Black⟩ [3, 4] (fun _ => rfl)⟩

/-- C4: `clear_frame` blocks once for idle and then writes 2 * width * height
    / 8 = 2560 data bytes, every one equal to the DEFAULT background color's
    encoded byte, split into two equal 1280-byte flood-fills (one per plane,
    each preceded by its plane-select command) — independent of the handle's
    current background color. -/
theorem C4_clear_frame {E F : Type} (env : Env E F) (epd : Epd)
    (hbus : ∀ i, env.bus i = none) :
    clear_frame env epd st0 =
      EStateM.Result.ok ()
        ⟨2562, 1,
         Act.waitIdle :: Act.cmdW 0x10 ::
           (List.replicate 1280 (Act.dataW [DEFAULT_BACKGROUND_COLOR.get_byte_value]) ++
             Act.cmdW 0x13 ::
               List.replicate 1280 (Act.dataW [DEFAULT_BACKGROUND_COLOR.get_byte_value])),
         0x10 :: (List.replicate 1280 DEFAULT_BACKGROUND_COLOR.get_byte_value ++
           0x13 :: List.replicate 1280 DEFAULT_BACKGROUND_COLOR.get_byte_value)⟩
    ∧ dataBytesOf clearFrameActs =
        List.replicate (2 * WIDTH * HEIGHT / 8) DEFAULT_BACKGROUND_COLOR.get_byte_value
    ∧ 2 * WIDTH * HEIGHT / 8 = 2560 := by
  obtain ⟨hw, hwait, hbytes, hdata⟩ := stats_clearFrameActs
  refine ⟨?_, ?_, by decide⟩
  · rw [clear_frame_nf, run_ok env hbus, hw, hwait, hbytes]
    simp only [clearFrameActs, num_bits_1280, st0, List.nil_append, Nat.zero_add,
      Nat.reduceAdd, Nat.reduceMul]
  · rw [hdata]
    simp only [num_bits_1280, WIDTH, HEIGHT, Nat.reduceMul, Nat.reduceDiv]

/-- C4 witness: the theorem applied at a concrete environment and a handle
    whose current background color differs from the default. -/
theorem C4_witness :
    (∀ i, okEnv.bus i = none)
    ∧ (clear_frame okEnv ⟨Color.Black⟩ st0 =
        EStateM.Result.ok ()
          ⟨2562, 1,
           Act.waitIdle :: Act.cmdW 0x10 ::
             (List.replicate 1280
                  (Act.dataW [DEFAULT_BACKGROUND_COLOR.get_byte_value]) ++
               Act.cmdW 0x13 ::
                 List.replicate 1280
                   (Act.dataW [DEFAULT_BACKGROUND_COLOR.get_byte_value])),
           0x10 :: (List.replicate 1280 DEFAULT_BACKGROUND_COLOR.get_byte_value ++
             0x13 :: List.replicate 1280 DEFAULT_BACKGROUND_COLOR.get_byte_value)⟩
      ∧ dataBytesOf clearFrameActs =
          List.replicate (2 * WIDTH * HEIGHT / 8)
            DEFAULT_BACKGROUND_COLOR.get_byte_value
      ∧ 2 * WIDTH * HEIGHT / 8 = 2560) :=
  ⟨fun _ => rfl, C4_clear_frame okEnv ⟨Color.Black⟩ (fun _ => rfl)⟩

/-- C5: the resolution payload is exactly two one-byte data writes after the
    resolution command: the first byte is the width masked with 0b0111_1000
    (bits 3-0 forced to zero), 80 & 0b0111_1000 = 0x50, and the second byte is
    the height modulo 256, 128 mod 256 = 0x80. -/
theorem C5_send_resolution {E F : Type} (env : Env E F)
    (hbus : ∀ i, env.bus i = none) :
    send_resolution env st0 =
      EStateM.Result.ok ()
        ⟨3, 0, [Act.cmdW 0x61, Act.dataW [0x50], Act.dataW [0x80]],
         [0x61, 0x50, 0x80]⟩
    ∧ (WIDTH % 256) &&& 0b01111000 = 0x50
    ∧ HEIGHT % 256 = 0x80
    ∧ dataBytesOf [Act.cmdW 0x61, Act.dataW [0x50], Act.dataW [0x80]] =
        [0x50, 0x80] := by
  have hnf : send_resolution env =
      execActs env [Act.cmdW 0x61, Act.dataW [0x50], Act.dataW [0x80]] := by
    simp [send_resolution, command, send_data, DisplayInterface.cmd,
      DisplayInterface.data, Command.address, execActs, bind_assoc,
      mBindPureUnit, WIDTH, HEIGHT, width_mask_eq]
  refine ⟨?_, by decide, by decide, by decide⟩
  rw [hnf, run_ok env hbus]
  simp [st0, writeCount, waitCount, writtenBytes]

/-- C5 witness: the theorem applied at a concrete all-successful environment. -/
theorem C5_witness :
    (∀ i, okEnv.bus i = none)
    ∧ (send_resolution okEnv st0 =
        EStateM.Result.ok ()
          ⟨3, 0, [Act.cmdW 0x61, Act.dataW [0x50], Act.dataW [0x80]],
           [0x61, 0x50, 0x80]⟩
      ∧ (WIDTH % 256) &&& 0b01111000 = 0x50
      ∧ HEIGHT % 256 = 0x80
      ∧ dataBytesOf [Act.cmdW 0x61, Act.dataW [0x50], Act.dataW [0x80]] =
          [0x50, 0x80]) :=
  ⟨fun _ => rfl, C5_send_resolution okEnv (fun _ => rfl)⟩

/-- `sleep()` immediately followed by `wake()`. -/
def sleep_then_wake {E F : Type} (env : Env E F) (lutW1 lutB1 : List Byte) :
    M E Unit := do
  sleep env
  wake_up env lutW1 lutB1

theorem sleep_then_wake_nf {E F : Type} (env : Env E F) (lutW1 lutB1 : List Byte) :
    sleep_then_wake env lutW1 lutB1 =
      execActs env (sleepActs ++ initActs lutW1 lutB1) := by
  simp only [sleep_then_wake, execActs_append, ← sleep_nf, ← init_nf, wake_up]

/-- C6: `wake_up` is byte-for-byte identical to cold `init` (it is the same
    computation, hence the same command-and-payload sequence for every
    environment), and `sleep()` followed by `wake()` emits exactly the sleep
    sequence followed by the full cold-init sequence. -/
theorem C6_wake_equals_init {E F : Type} (env : Env E F)
    (lutW1 lutB1 : List Byte) (hbus : ∀ i, env.bus i = none) :
    wake_up env lutW1 lutB1 = init env lutW1 lutB1
    ∧ sleep_then_wake env lutW1 lutB1 st0 =
        EStateM.Result.ok ()
          ⟨writeCount sleepActs + writeCount (initActs lutW1 lutB1), 3,
           sleepActs ++ initActs lutW1 lutB1,
           writtenBytes sleepActs ++ writtenBytes (initActs lutW1 lutB1)⟩ := by
  refine ⟨rfl, ?_⟩
  rw [sleep_then_wake_nf, run_ok env hbus]
  simp [st0, writeCount_append, waitCount_append, writtenBytes_append,
    waitCount_sleepActs, waitCount_initActs]

/-- C6 witness: the theorem applied at a concrete all-successful environment
    and concrete LUT tables. -/
theorem C6_witness :
    (∀ i, okEnv.bus i = none)
    ∧ (wake_up okEnv [1] [2] = init okEnv [1] [2]
      ∧ sleep_then_wake okEnv [1] [2] st0 =
          EStateM.Result.ok ()
            ⟨writeCount sleepActs + writeCount (initActs [1] [2]), 3,
             sleepActs ++ initActs [1] [2],
             writtenBytes sleepActs ++ writtenBytes (initActs [1] [2])⟩) :=
  ⟨fun _ => rfl, C6_wake_equals_init okEnv [1] [2] (fun _ => rfl)⟩

/-- C7: `sleep` performs exactly: one idle-wait, the power-off command (0x02),
    one more idle-wait, then the deep-sleep command (0x07) with its single
    fixed parameter byte 0xa5 — in that order and nothing else. -/
theorem C7_sleep {E F : Type} (env : Env E F) (hbus : ∀ i, env.bus i = none) :
    sleep env st0 =
      EStateM.Result.ok () ⟨3, 2, sleepActs, [0x02, 0x07, 0xa5]⟩
    ∧ sleepActs =
        [Act.waitIdle, Act.cmdW 0x02, Act.waitIdle, Act.cmdW 0x07,
         Act.dataW [0xa5]] := by
  refine ⟨?_, rfl⟩
  rw [sleep_nf, run_ok env hbus]
  simp [st0, sleepActs, writeCount, waitCount, writtenBytes]

/-- C7 witness: the theorem applied at a concrete all-successful environment. -/
theorem C7_witness :
    (∀ i, okEnv.bus i = none)
    ∧ (sleep okEnv st0 =
        EStateM.Result.ok () ⟨3, 2, sleepActs, [0x02, 0x07, 0xa5]⟩
      ∧ sleepActs =
          [Act.waitIdle, Act.cmdW 0x02, Act.waitIdle, Act.cmdW 0x07,
           Act.dataW [0xa5]]) :=
  ⟨fun _ => rfl, C7_sleep okEnv (fun _ => rfl)⟩

/-- C8: for every composite operation (new/init, update_frame, display_frame,
    update_and_display_frame, clear_frame, sleep), if the j-th underlying bus
    write fails with error e, the operation returns exactly that transport
    error, performs no retry, and issues no further bus writes: the number of
    bus writes performed is exactly j and the bytes on the bus are exactly
    those of the first j writes of the operation's sequence. -/
theorem C8_transport_error_propagation {E F : Type} (busy : Nat → Except F Unit)
    (e : E) (epd : Epd) (buffer lutW1 lutB1 : List Byte)
    (j1 j2 j3 j4 j5 j6 : Nat)
    (hj1 : j1 < writeCount (initActs lutW1 lutB1))
    (hj2 : j2 < writeCount (updateFrameActs epd.color buffer))
    (hj3 : j3 < writeCount displayFrameActs)
    (hj4 : j4 < writeCount (updateFrameActs epd.color buffer ++ displayFrameActs))
    (hj5 : j5 < writeCount clearFrameActs)
    (hj6 : j6 < writeCount sleepActs) :
    (∃ nwa tr, new (failEnv j1 e busy) lutW1 lutB1 st0 =
      EStateM.Result.error (DriverError.transport e)
        ⟨j1, nwa, tr, writtenBytesUpTo j1 (initActs lutW1 lutB1)⟩)
    ∧ (∃ nwa tr, update_frame (failEnv j2 e busy) epd buffer st0 =
      EStateM.Result.error (DriverError.transport e)
        ⟨j2, nwa, tr, writtenBytesUpTo j2 (updateFrameActs epd.color buffer)⟩)
    ∧ (∃ nwa tr, display_frame (failEnv j3 e busy) st0 =
      EStateM.Result.error (DriverError.transport e)
        ⟨j3, nwa, tr, writtenBytesUpTo j3 displayFrameActs⟩)
    ∧ (∃ nwa tr, update_and_display_frame (failEnv j4 e busy) epd buffer st0 =
      EStateM.Result.error (DriverError.transport e)
        ⟨j4, nwa, tr,
         writtenBytesUpTo j4 (updateFrameActs epd.color buffer ++ displayFrameActs)⟩)
    ∧ (∃ nwa tr, clear_frame (failEnv j5 e busy) epd st0 =
      EStateM.Result.error (DriverError.transport e)
        ⟨j5, nwa, tr, writtenBytesUpTo j5 clearFrameActs⟩)
    ∧ (∃ nwa tr, sleep (failEnv j6 e busy) st0 =
      EStateM.Result.error (DriverError.transport e)
        ⟨j6, nwa, tr, writtenBytesUpTo j6 sleepActs⟩) := by
  refine ⟨?_, ?_, ?_, ?_, ?_, ?_⟩
  · obtain ⟨nwa, tr, h⟩ := run_fail e busy (initActs lutW1 lutB1) st0 j1
      (by simp [st0]) (by simpa [st0] using hj1)
    refine ⟨nwa, tr, ?_⟩
    rw [new_nf, mBindErr h]
    simp [st0]
  · obtain ⟨nwa, tr, h⟩ := run_fail e busy (updateFrameActs epd.color buffer) st0 j2
      (by simp [st0]) (by simpa [st0] using hj2)
    refine ⟨nwa, tr, ?_⟩
    rw [update_frame_nf]
    simpa [st0] using h
  · obtain ⟨nwa, tr, h⟩ := run_fail e busy displayFrameActs st0 j3
      (by simp [st0]) (by simpa [st0] using hj3)
    refine ⟨nwa, tr, ?_⟩
    rw [display_frame_nf]
    simpa [st0] using h
  · obtain ⟨nwa, tr, h⟩ := run_fail e busy
      (updateFrameActs epd.color buffer ++ displayFrameActs) st0 j4
      (by simp [st0]) (by simpa [st0] using hj4)
    refine ⟨nwa, tr, ?_⟩
    rw [update_and_display_frame_nf]
    simpa [st0] using h
  · obtain ⟨nwa, tr, h⟩ := run_fail e busy clearFrameActs st0 j5
      (by simp [st0]) (by simpa [st0] using hj5)
    refine ⟨nwa, tr, ?_⟩
    rw [clear_frame_nf]
    simpa [st0] using h
  · obtain ⟨nwa, tr, h⟩ := run_fail e busy sleepActs st0 j6
      (by simp [st0]) (by simpa [st0] using hj6)
    refine ⟨nwa, tr, ?_⟩
    rw [sleep_nf]
    simpa [st0] using h

/-- C8 witness: the theorem applied with the first bus write of each operation
    failing with a concrete transport error. -/
theorem C8_witness :
    (0 < writeCount (initActs [1] [2])
      ∧ 0 < writeCount (updateFrameActs (Epd.mk Color.Black).color [9])
      ∧ 0 < writeCount displayFrameActs
      ∧ 0 < writeCount (updateFrameActs (Epd.mk Color.Black).color [9] ++ displayFrameActs)
      ∧ 0 < writeCount clearFrameActs
      ∧ 0 < writeCount sleepActs)
    ∧ ((∃ nwa tr, new (failEnv 0 37 okBusy) [1] [2] st0 =
        EStateM.Result.error (DriverError.transport 37)
          ⟨0, nwa, tr, writtenBytesUpTo 0 (initActs [1] [2])⟩)
      ∧ (∃ nwa tr, update_frame (failEnv 0 37 okBusy)
            (Epd.mk Color.Black) [9] st0 =
        EStateM.Result.error (DriverError.transport 37)
          ⟨0, nwa, tr, writtenBytesUpTo 0 (updateFrameActs (Epd.mk Color.Black).color [9])⟩)
      ∧ (∃ nwa tr, display_frame (failEnv 0 37 okBusy) st0 =
        EStateM.Result.error (DriverError.transport (37 : Nat))
          ⟨0, nwa, tr, writtenBytesUpTo 0 displayFrameActs⟩)
      ∧ (∃ nwa tr, update_and_display_frame (failEnv 0 37 okBusy)
            (Epd.mk Color.Black) [9] st0 =
        EStateM.Result.error (DriverError.transport 37)
          ⟨0, nwa, tr,
           writtenBytesUpTo 0
             (updateFrameActs (Epd.mk Color.Black).color [9] ++ displayFrameActs)⟩)
      ∧ (∃ nwa tr, clear_frame (failEnv 0 37 okBusy)
            (Epd.mk Color.Black) st0 =
        EStateM.Result.error (DriverError.transport 37)
          ⟨0, nwa, tr, writtenBytesUpTo 0 clearFrameActs⟩)
      ∧ (∃ nwa tr, sleep (failEnv 0 37 okBusy) st0 =
        EStateM.Result.error (DriverError.transport 37)
          ⟨0, nwa, tr, writtenBytesUpTo 0 sleepActs⟩)) :=
  by
  have hupd : 0 < writeCount (updateFrameActs (Epd.mk Color.Black).color [9]) := by
    rw [(stats_updateFrameActs (Epd.mk Color.Black).color [9]).1]
    decide
  have huad : 0 < writeCount
      (updateFrameActs (Epd.mk Color.Black).color [9] ++ displayFrameActs) := by
    rw [writeCount_append, (stats_updateFrameActs (Epd.mk Color.Black).color [9]).1]
    decide
  have hclear : 0 < writeCount clearFrameActs := by
    rw [stats_clearFrameActs.1]
    decide
  exact ⟨⟨by decide, hupd, by decide, huad, hclear, by decide⟩,
    C8_transport_error_propagation okBusy 37 (Epd.mk Color.Black)
      [9] [1] [2] 0 0 0 0 0 0 (by decide) hupd (by decide) huad hclear (by decide)⟩

/-- C10: errors from sampling the busy line during an idle-wait are silently
    discarded.  First, every public operation behaves identically under any
    two busy-line oracles (so a failed busy-line read neither surfaces nor
    aborts the remaining sequence); second, every outcome of these operations
    is a success or a propagated bus-write transport error — never a
    busy-line-originated failure. -/
theorem C10_busy_errors_discarded {E F : Type} (bus : Nat → Option E)
    (b1 b2 : Nat → Except F Unit) (epd : Epd) (buffer lutW1 lutB1 : List Byte) :
    (new ⟨bus, b1⟩ lutW1 lutB1 = new ⟨bus, b2⟩ lutW1 lutB1
      ∧ sleep ⟨bus, b1⟩ = sleep ⟨bus, b2⟩
      ∧ update_frame ⟨bus, b1⟩ epd buffer = update_frame ⟨bus, b2⟩ epd buffer
      ∧ display_frame ⟨bus, b1⟩ = display_frame ⟨bus, b2⟩
      ∧ clear_frame ⟨bus, b1⟩ epd = clear_frame ⟨bus, b2⟩ epd)
    ∧ ∀ (env : Env E F) (s : St),
        transportOnly (new env lutW1 lutB1 s)
        ∧ transportOnly (sleep env s)
        ∧ transportOnly (update_frame env epd buffer s)
        ∧ transportOnly (display_frame env s)
        ∧ transportOnly (clear_frame env epd s) := by
  constructor
  · refine ⟨?_, ?_, ?_, ?_, ?_⟩
    · rw [new_nf, new_nf, execActs_busy_irrel bus b1 b2]
    · rw [sleep_nf, sleep_nf, execActs_busy_irrel bus b1 b2]
    · rw [update_frame_nf, update_frame_nf, execActs_busy_irrel bus b1 b2]
    · rw [display_frame_nf, display_frame_nf, execActs_busy_irrel bus b1 b2]
    · rw [clear_frame_nf, clear_frame_nf, execActs_busy_irrel bus b1 b2]
  · intro env s
    refine ⟨?_, ?_, ?_, ?_, ?_⟩
    · rw [new_nf]
      exact transportOnly_bind _ _ s (execActs_transportOnly env _ s)
        (fun a s' => transportOnly_pure _ s')
    · rw [sleep_nf]
      exact execActs_transportOnly env _ s
    · rw [update_frame_nf]
      exact execActs_transportOnly env _ s
    · rw [display_frame_nf]
      exact execActs_transportOnly env _ s
    · rw [clear_frame_nf]
      exact execActs_transportOnly env _ s

/-- C9: setting the background color and reading it back via the accessor
    yields exactly the value that was set; both operations are pure functions
    of the handle (the source functions receive no bus or GPIO handle), so
    neither performs any bus write. -/
theorem C9_background_color_roundtrip (epd : Epd) (c : Color) :
    background_color (set_background_color epd c) = c := rfl

end Epd1in02
